import Mathlib

/-! Shallow embedding of the React hooks cheat sheet source file
    (src/HooksCheetSheet.tsx) and verification of properties of its
    example components. -/

namespace HooksCheatSheet

/-- Model of the JavaScript runtime values that flow through the examples:
    component state held by useState, fetch responses, and the values read
    by render expressions. -/
inductive JSValue where
  | undefined
  | null
  | boolean (b : Bool)
  | num (n : Int)
  | str (s : String)
  | arr (elems : List JSValue)
  | obj (fields : List (String × JSValue))
  | func (name : String)
  | promise (result : JSValue)

/-- JavaScript property access v.name: an object yields the field value or
    undefined when absent; any other value, including an array (which has no
    such own property), yields undefined. -/
def getField (v : JSValue) (name : String) : JSValue :=
  match v with
  | .obj fields => (List.lookup name fields).getD .undefined
  | _ => .undefined

/-- Event handlers attached to rendered elements in the examples: the
    useState example passes a setCount update, the useReducer example
    dispatches an action object. -/
inductive Handler where
  | setCount (newCount : Int)
  | dispatch (actionType : String)

/-- An attribute value on a rendered element: an event handler or plain
    text. -/
inductive Attr where
  | handler (h : Handler)
  | text (s : String)

/-- Rendered output of a component: a text node or an element with a tag,
    an attribute list (attribute name, value) and children. -/
inductive Html where
  | text (s : String)
  | elem (tag : String) (attrs : List (String × Attr)) (children : List Html)

/-- String coercion of a JS value as used inside JSX text interpolation. -/
def jsToString : JSValue → String
  | .undefined => "undefined"
  | .null => "null"
  | .boolean b => if b then "true" else "false"
  | .num n => toString n
  | .str s => s
  | .arr _ => ""
  | .obj _ => "object"
  | .func n => n
  | .promise _ => "promise"

/-- Calling v.map f as in the render expressions: succeeds on an array,
    throws a TypeError when the callee is undefined or null, and is a
    non-function error otherwise. -/
def callMap (v : JSValue) (f : JSValue → Html) : Except String (List Html) :=
  match v with
  | .arr xs => .ok (xs.map f)
  | .undefined => .error "TypeError: cannot read properties of undefined, reading map"
  | .null => .error "TypeError: cannot read properties of null, reading map"
  | _ => .error "TypeError: map is not a function"

/-- Whether an Except value carries a successful result. -/
def isOkB {ε α : Type} : Except ε α → Bool
  | .ok _ => true
  | .error _ => false

/-- Whether a JS value is a Promise object. -/
def isPromiseB : JSValue → Bool
  | .promise _ => true
  | _ => false

/-- Whether a value is acceptable as the return of an effect callback for
    the host framework: undefined (no cleanup) or a cleanup function. -/
def isValidEffectReturn : JSValue → Bool
  | .undefined => true
  | .func _ => true
  | _ => false

/-- Syntactic kind of a JavaScript function expression. -/
inductive FunctionKind where
  | sync
  | async
deriving DecidableEq

/-- Calling a function whose body evaluates to bodyReturn: an async
    function wraps the result in a Promise, a synchronous one returns it
    as is. -/
def invokeCallback (k : FunctionKind) (bodyReturn : JSValue) : JSValue :=
  match k with
  | .async => .promise bodyReturn
  | .sync => bodyReturn

/-- Statements appearing in the effect callback bodies of the examples. -/
inductive JSStmt where
  | constAwaitFetch (target : String) (url : String)
  | constAwaitJson (target : String) (source : String)
  | callSetState (setter : String) (arg : String)

/-- Whether a statement is a res.json() parsing call. -/
def stmtCallsJson : JSStmt → Bool
  | .constAwaitJson _ _ => true
  | _ => false

/-- Whether any statement of an effect body parses a response via json. -/
def callsJson (body : List JSStmt) : Bool :=
  body.any stmtCallsJson

/-- The Response object produced by an awaited fetch whose parsed body
    would be data: the raw object is a wrapper, not the data itself. -/
def fetchResponse (data : JSValue) : JSValue :=
  .obj [("status", .num 200), ("body", data)]

/-- Parsing a response via res.json(): extracts the body of the raw
    response object. -/
def jsonParse (res : JSValue) : JSValue :=
  getField res "body"

/-- Environment lookup for local const bindings inside an effect body. -/
def lookupEnv (env : List (String × JSValue)) (name : String) : JSValue :=
  (List.lookup name env).getD .undefined

/-- Running an effect body given the value an awaited fetch resolves to:
    returns the list of values passed to the state setter, in order. -/
def runEffectBody : List JSStmt → List (String × JSValue) → JSValue → List JSValue
  | [], _, _ => []
  | .constAwaitFetch t _ :: rest, env, w => runEffectBody rest ((t, w) :: env) w
  | .constAwaitJson t s :: rest, env, w =>
      runEffectBody rest ((t, jsonParse (lookupEnv env s)) :: env) w
  | .callSetState _ a :: rest, env, w => lookupEnv env a :: runEffectBody rest env w

/-- The props record a component of type React.FC receives. None of the
    examples declare props, so any props value is accepted and ignored. -/
def Props : Type := List (String × JSValue)

/-- Example 1, UseStateExample: initial state of useState(0). -/
def UseStateExample.initialCount : Int := 0

/-- Example 1, UseStateExample: the render output for a given count. The
    source writes the handler under the lowercase attribute name onclick. -/
def UseStateExample.render (count : Int) : Html :=
  .elem "button" [("onclick", .handler (.setCount (count + 1)))]
    [.text "useState increment: ", .text (jsToString (.num count))]

/-- Example 2, UseReducerExample: the state shape managed by the reducer. -/
structure CounterState where
  count : Int
deriving DecidableEq

/-- Example 2, UseReducerExample: the action objects dispatched to the
    reducer, carrying a type tag. -/
structure Action where
  type : String

/-- Example 2, UseReducerExample: the reducer switching on action.type,
    with increment and decrement cases and a default returning the state
    unchanged. -/
def UseReducerExample.reducer (state : CounterState) (action : Action) : CounterState :=
  match action.type with
  | "increment" => { count := state.count + 1 }
  | "decrement" => { count := state.count - 1 }
  | _ => state

/-- Example 2, UseReducerExample: initial state of useReducer. -/
def UseReducerExample.initialState : CounterState := { count := 0 }

/-- Example 2, UseReducerExample: the render output for a given state. The
    source writes the handler under the lowercase attribute name onclick
    and it dispatches an increment action. -/
def UseReducerExample.render (state : CounterState) : Html :=
  .elem "button" [("onclick", .handler (.dispatch "increment"))]
    [.text "useReducer increment: ", .text (jsToString (.num state.count))]

/-- Example 3, UseSyncExternalStoreExample: the whole component body, a
    single constant element with no hook call. -/
def UseSyncExternalStoreExample.render (_props : Props) : Html :=
  .elem "div" [] [.text "useSyncExternalStore Example"]

/-- Example 4, UseEffectExample: initial state of useState([]). -/
def UseEffectExample.initialResponse : JSValue := .arr []

/-- Example 4, UseEffectExample: the body of the effect callback, read off
    the source line by line: await fetch into res, then setResponse(res). -/
def UseEffectExample.effectBody : List JSStmt :=
  [.constAwaitFetch "res" "https://api.example.com/data",
   .callSetState "setResponse" "res"]

/-- Example 4, UseEffectExample: the mapper of the render expression,
    item goes to an li element showing item.name. -/
def UseEffectExample.liItem (item : JSValue) : Html :=
  .elem "li" [] [.text (jsToString (getField item "name"))]

/-- Example 4, UseEffectExample: the render list expression
    response.data.map applied to the li mapper. -/
def UseEffectExample.renderList (response : JSValue) : Except String (List Html) :=
  callMap (getField response "data") UseEffectExample.liItem

/-- Example 5, UseLayoutEffectExample: initial state of useState([]). -/
def UseLayoutEffectExample.initialResponse : JSValue := .arr []

/-- Example 5, UseLayoutEffectExample: the body of the effect callback,
    identical in the source to the one of example 4. -/
def UseLayoutEffectExample.effectBody : List JSStmt :=
  [.constAwaitFetch "res" "https://api.example.com/data",
   .callSetState "setResponse" "res"]

/-- Example 5, UseLayoutEffectExample: the mapper of the render
    expression. -/
def UseLayoutEffectExample.liItem (item : JSValue) : Html :=
  .elem "li" [] [.text (jsToString (getField item "name"))]

/-- Example 5, UseLayoutEffectExample: the render list expression
    response.data.map applied to the li mapper. -/
def UseLayoutEffectExample.renderList (response : JSValue) : Except String (List Html) :=
  callMap (getField response "data") UseLayoutEffectExample.liItem

/-- Registration of an effect hook call as written in the source: which
    syntactic kind of callback is passed and the dependency list, when
    present. -/
structure EffectRegistration where
  callbackKind : FunctionKind
  deps : Option (List String)

/-- Example 4: useEffect is passed an async arrow function with an empty
    dependency array. -/
def UseEffectExample.effectRegistration : EffectRegistration :=
  { callbackKind := .async, deps := some [] }

/-- Example 5: useLayoutEffect is passed an async arrow function with no
    dependency argument. -/
def UseLayoutEffectExample.effectRegistration : EffectRegistration :=
  { callbackKind := .async, deps := none }

/-- Example 6: useInsertionEffect is passed an async arrow function with
    an empty body and a dependency array holding the dependencies state. -/
def UseInsertionEffectExample.effectRegistration : EffectRegistration :=
  { callbackKind := .async, deps := some ["dependencies"] }

/-- Example 8, UseMemoExample: the expensive computation, returning twice
    its argument. -/
def UseMemoExample.expensiveComputation (num : Int) : Int := num * 2

/-- The cache slot backing a useMemo call: the dependency value observed
    at the last computation and the value computed then. -/
structure MemoCache where
  dep : Int
  value : Int

/-- Host framework semantics of useMemo with a single dependency: reuse
    the cached value when the dependency is unchanged, otherwise recompute
    and refill the cache. Returns the value handed to the render and the
    cache slot afterwards. -/
def useMemo (compute : Unit → Int) (dep : Int) (cache : Option MemoCache) : Int × MemoCache :=
  match cache with
  | some c => if c.dep = dep then (c.value, c)
              else ((compute ()), { dep := dep, value := compute () })
  | none => ((compute ()), { dep := dep, value := compute () })

/-- The framework-held state of a mounted UseMemoExample: the count state
    cell and the useMemo cache slot. -/
structure UseMemoExampleState where
  count : Int
  cache : Option MemoCache

/-- Example 8, UseMemoExample: one render pass. The useMemo call computes
    expensiveComputation count with dependency array holding count. Returns
    the memoized value displayed and the state afterwards. -/
def UseMemoExample.render (s : UseMemoExampleState) : Int × UseMemoExampleState :=
  let r := useMemo (fun _ => UseMemoExample.expensiveComputation s.count) s.count s.cache
  (r.1, { count := s.count, cache := some r.2 })

/-- Example 8, UseMemoExample: the increment button handler,
    setCount (count + 1). -/
def UseMemoExample.click (s : UseMemoExampleState) : UseMemoExampleState :=
  { count := s.count + 1, cache := s.cache }

/-- Example 8, UseMemoExample: the mounted component after the initial
    render and a sequence of click events, each followed by a re-render. -/
def UseMemoExample.run : List Unit → UseMemoExampleState
  | [] => (UseMemoExample.render { count := 0, cache := none }).2
  | _ :: rest => (UseMemoExample.render (UseMemoExample.click (UseMemoExample.run rest))).2

/-- A React context carrying a string value, with its default. -/
structure RContext where
  default : String

/-- Example 10: the ThemeContext created with default value light. -/
def ThemeContext : RContext := { default := "light" }

/-- Host framework semantics of useContext: the stack of values provided
    by enclosing Provider elements, innermost first; the nearest provided
    value wins, and with no enclosing provider the default applies. -/
def useContext (ctx : RContext) (provided : List String) : String :=
  match provided with
  | v :: _ => v
  | [] => ctx.default

/-- Example 10, ChildComponentContext: reads the theme through useContext
    and renders it. The provided stack is the ambient context at its
    render site. -/
def ChildComponentContext.render (provided : List String) : Html :=
  .elem "p" [] [.text ("Current theme: " ++ useContext ThemeContext provided)]

/-- Example 10, UseContextExample: wraps ChildComponentContext in a
    Provider with value dark, pushing dark onto the ambient stack of its
    own render site. -/
def UseContextExample.render (provided : List String) : Html :=
  .elem "div" []
    [.elem "h1" [] [.text "useContext Example"],
     ChildComponentContext.render ("dark" :: provided)]

/-- The hooks the source file imports or mentions. -/
inductive Hook where
  | useState
  | useReducer
  | useEffect
  | useLayoutEffect
  | useInsertionEffect
  | useRef
  | useMemo
  | useCallback
  | useContext
  | useTransition
  | useDeferredValue
  | useDebugValue
  | useId
  | use
  | useSyncExternalStore
deriving DecidableEq

/-- The module-level definitions of the source file, in order. -/
inductive SourceDef where
  | UseStateExample
  | UseReducerExample
  | UseSyncExternalStoreExample
  | UseEffectExample
  | UseLayoutEffectExample
  | UseInsertionEffectExample
  | UseRefExample
  | UseMemoExample
  | ChildComponent
  | UseCallbackExample
  | ThemeContext
  | UseContextExample
  | ChildComponentContext
  | UseTransitionExample
  | UseDeferredValueExample
  | UseDebugValueExample
  | UseIdExample
  | MyComponent
  | fetchDataFromAPI
deriving DecidableEq

/-- The numbered example section of the file each module-level definition
    belongs to, per the section comments of the source. -/
def exampleOf : SourceDef → Nat
  | .UseStateExample => 1
  | .UseReducerExample => 2
  | .UseSyncExternalStoreExample => 3
  | .UseEffectExample => 4
  | .UseLayoutEffectExample => 5
  | .UseInsertionEffectExample => 6
  | .UseRefExample => 7
  | .UseMemoExample => 8
  | .ChildComponent => 9
  | .UseCallbackExample => 9
  | .ThemeContext => 10
  | .UseContextExample => 10
  | .ChildComponentContext => 10
  | .UseTransitionExample => 11
  | .UseDeferredValueExample => 12
  | .UseDebugValueExample => 13
  | .UseIdExample => 14
  | .MyComponent => 15
  | .fetchDataFromAPI => 15

/-- The hook calls each definition performs during one render, read off
    the source in order of appearance. -/
def hookCalls : SourceDef → List Hook
  | .UseStateExample => [.useState]
  | .UseReducerExample => [.useReducer]
  | .UseSyncExternalStoreExample => []
  | .UseEffectExample => [.useState, .useEffect]
  | .UseLayoutEffectExample => [.useState, .useLayoutEffect]
  | .UseInsertionEffectExample => [.useState, .useInsertionEffect]
  | .UseRefExample => [.useRef]
  | .UseMemoExample => [.useState, .useMemo]
  | .ChildComponent => []
  | .UseCallbackExample => [.useState, .useCallback]
  | .ThemeContext => []
  | .UseContextExample => []
  | .ChildComponentContext => [.useContext]
  | .UseTransitionExample => [.useTransition]
  | .UseDeferredValueExample => [.useState, .useDeferredValue]
  | .UseDebugValueExample => [.useDebugValue]
  | .UseIdExample => [.useId, .useId]
  | .MyComponent => [.use]
  | .fetchDataFromAPI => []

/-- The module-level definitions of this file each definition references
    (calls, renders, or reads), read off the source. -/
def references : SourceDef → List SourceDef
  | .UseCallbackExample => [.ChildComponent]
  | .UseContextExample => [.ThemeContext, .ChildComponentContext]
  | .ChildComponentContext => [.ThemeContext]
  | .MyComponent => [.fetchDataFromAPI]
  | _ => []

/-- Whether a hook creates a component-local state value: useState,
    useReducer, or useRef. -/
def isStateHook : Hook → Bool
  | .useState => true
  | .useReducer => true
  | .useRef => true
  | _ => false

/-- The attribute list of a rendered element, empty on a text node. -/
def attrsOf : Html → List (String × Attr)
  | .elem _ attrs _ => attrs
  | .text _ => []

/-- Well-formedness of a useMemo cache slot in UseMemoExample: the cached
    value is the expensive computation of the cached dependency. -/
def cacheOk : Option MemoCache → Bool
  | none => true
  | some c => decide (c.value = UseMemoExample.expensiveComputation c.dep)

lemma useMemo_cacheOk (dep : Int) (cache : Option MemoCache) (h : cacheOk cache = true) :
    (useMemo (fun _ => UseMemoExample.expensiveComputation dep) dep cache).1 =
      UseMemoExample.expensiveComputation dep ∧
    cacheOk (some (useMemo (fun _ => UseMemoExample.expensiveComputation dep) dep cache).2) = true := by
  cases cache with
  | none => exact ⟨rfl, by simp [useMemo, cacheOk]⟩
  | some c =>
    simp only [cacheOk, decide_eq_true_eq] at h
    by_cases hd : c.dep = dep
    · constructor
      · simp [useMemo, hd, h]
      · simp [useMemo, hd, cacheOk, h]
    · constructor
      · simp [useMemo, hd]
      · simp [useMemo, hd, cacheOk]

lemma render_cacheOk (s : UseMemoExampleState) (h : cacheOk s.cache = true) :
    (UseMemoExample.render s).1 = UseMemoExample.expensiveComputation s.count ∧
    cacheOk (UseMemoExample.render s).2.cache = true := by
  have := useMemo_cacheOk s.count s.cache h
  exact ⟨this.1, this.2⟩

lemma run_cacheOk : ∀ trace : List Unit, cacheOk (UseMemoExample.run trace).cache = true := by
  intro trace
  induction trace with
  | nil => exact (render_cacheOk { count := 0, cache := none } rfl).2
  | cons _ rest ih =>
      exact (render_cacheOk (UseMemoExample.click (UseMemoExample.run rest)) ih).2

/-- C1: In the useEffect and useLayoutEffect examples the initial state of
    response is the empty array, whose data field is undefined, so the
    render expression response.data.map fails with a TypeError instead of
    producing a list. -/
theorem c1_initial_render_read_fails :
    UseEffectExample.initialResponse = JSValue.arr [] ∧
    getField UseEffectExample.initialResponse "data" = JSValue.undefined ∧
    UseEffectExample.renderList UseEffectExample.initialResponse =
      Except.error "TypeError: cannot read properties of undefined, reading map" ∧
    isOkB (UseEffectExample.renderList UseEffectExample.initialResponse) = false ∧
    UseLayoutEffectExample.initialResponse = JSValue.arr [] ∧
    getField UseLayoutEffectExample.initialResponse "data" = JSValue.undefined ∧
    UseLayoutEffectExample.renderList UseLayoutEffectExample.initialResponse =
      Except.error "TypeError: cannot read properties of undefined, reading map" ∧
    isOkB (UseLayoutEffectExample.renderList UseLayoutEffectExample.initialResponse) = false :=
  ⟨rfl, rfl, rfl, rfl, rfl, rfl, rfl, rfl⟩

/-- C2: All three effect examples pass an async callback, so every
    invocation of the callback returns a Promise, never the undefined or
    cleanup function the host framework accepts as an effect return. -/
theorem c2_async_effect_return_is_promise :
    UseEffectExample.effectRegistration.callbackKind = FunctionKind.async ∧
    UseLayoutEffectExample.effectRegistration.callbackKind = FunctionKind.async ∧
    UseInsertionEffectExample.effectRegistration.callbackKind = FunctionKind.async ∧
    ∀ bodyReturn : JSValue,
      isPromiseB (invokeCallback UseEffectExample.effectRegistration.callbackKind bodyReturn) = true ∧
      isPromiseB (invokeCallback UseLayoutEffectExample.effectRegistration.callbackKind bodyReturn) = true ∧
      isPromiseB (invokeCallback UseInsertionEffectExample.effectRegistration.callbackKind bodyReturn) = true ∧
      isValidEffectReturn (invokeCallback UseEffectExample.effectRegistration.callbackKind bodyReturn) = false ∧
      isValidEffectReturn (invokeCallback UseLayoutEffectExample.effectRegistration.callbackKind bodyReturn) = false ∧
      isValidEffectReturn (invokeCallback UseInsertionEffectExample.effectRegistration.callbackKind bodyReturn) = false :=
  ⟨rfl, rfl, rfl, fun _ => ⟨rfl, rfl, rfl, rfl, rfl, rfl⟩⟩

/-- C3: The reducer of the useReducer example is a total transition
    function: increment adds one, decrement subtracts one, and any other
    action type returns the state unchanged. -/
theorem c3_reducer_total_transition (n : Int) (t : String) :
    (t = "increment" → UseReducerExample.reducer ⟨n⟩ ⟨t⟩ = ⟨n + 1⟩) ∧
    (t = "decrement" → UseReducerExample.reducer ⟨n⟩ ⟨t⟩ = ⟨n - 1⟩) ∧
    (t ≠ "increment" → t ≠ "decrement" → UseReducerExample.reducer ⟨n⟩ ⟨t⟩ = ⟨n⟩) := by
  refine ⟨fun h => ?_, fun h => ?_, fun h1 h2 => ?_⟩
  · subst h; rfl
  · subst h; rfl
  · unfold UseReducerExample.reducer
    split
    · simp_all
    · simp_all
    · rfl

theorem c3_reducer_witness :
    UseReducerExample.reducer ⟨5⟩ ⟨"increment"⟩ = ⟨5 + 1⟩ ∧
    UseReducerExample.reducer ⟨5⟩ ⟨"decrement"⟩ = ⟨5 - 1⟩ ∧
    UseReducerExample.reducer ⟨5⟩ ⟨"reset"⟩ = ⟨5⟩ :=
  ⟨(c3_reducer_total_transition 5 "increment").1 rfl,
   (c3_reducer_total_transition 5 "decrement").2.1 rfl,
   (c3_reducer_total_transition 5 "reset").2.2 (by decide) (by decide)⟩

/-- C4: The effect bodies of the useEffect and useLayoutEffect examples
    contain no json parsing call and store exactly the raw value the fetch
    resolved to; in particular, on a response wrapping parsed data they
    store the wrapper, while json parsing would have extracted the data. -/
theorem c4_effect_stores_raw_response :
    callsJson UseEffectExample.effectBody = false ∧
    callsJson UseLayoutEffectExample.effectBody = false ∧
    (∀ res : JSValue,
      runEffectBody UseEffectExample.effectBody [] res = [res] ∧
      runEffectBody UseLayoutEffectExample.effectBody [] res = [res]) ∧
    (∀ data : JSValue,
      runEffectBody UseEffectExample.effectBody [] (fetchResponse data) = [fetchResponse data] ∧
      jsonParse (fetchResponse data) = data) :=
  ⟨rfl, rfl, fun _ => ⟨rfl, rfl⟩, fun _ => ⟨rfl, rfl⟩⟩

/-- C5: ChildComponentContext reads the theme via useContext: rendered
    inside the provider of UseContextExample it shows dark, and rendered
    with no enclosing provider it shows the default light. -/
theorem c5_context_value_propagation :
    ThemeContext.default = "light" ∧
    (∀ provided : List String,
      UseContextExample.render provided =
        Html.elem "div" []
          [Html.elem "h1" [] [Html.text "useContext Example"],
           Html.elem "p" [] [Html.text "Current theme: dark"]]) ∧
    ChildComponentContext.render [] =
      Html.elem "p" [] [Html.text "Current theme: light"] :=
  ⟨rfl, fun _ => rfl, rfl⟩

/-- C6: No definition in the file references a module-level definition
    belonging to a different numbered example: every reference stays
    inside its own example. -/
theorem c6_examples_reference_locally (f d : SourceDef) (h : d ∈ references f) :
    exampleOf d = exampleOf f := by
  cases f <;> cases d <;> revert h <;> decide

theorem c6_reference_witness :
    exampleOf SourceDef.ChildComponent = exampleOf SourceDef.UseCallbackExample :=
  c6_examples_reference_locally SourceDef.UseCallbackExample SourceDef.ChildComponent (by decide)

/-- C7: UseSyncExternalStoreExample calls no hook, the hook
    useSyncExternalStore is invoked nowhere in the file, and the component
    returns the same fixed element for every props input. -/
theorem c7_external_store_placeholder :
    hookCalls SourceDef.UseSyncExternalStoreExample = [] ∧
    (∀ f : SourceDef, (hookCalls f).contains Hook.useSyncExternalStore = false) ∧
    (∀ p q : Props, UseSyncExternalStoreExample.render p = UseSyncExternalStoreExample.render q) :=
  ⟨rfl, by intro f; cases f <;> rfl, fun _ _ => rfl⟩

/-- C8: No definition of the file invokes more than one state-creating
    hook (useState, useReducer, or useRef) in a render. -/
theorem c8_at_most_one_state_hook :
    ∀ f : SourceDef, (hookCalls f).countP (fun h => isStateHook h) ≤ 1 := by
  intro f; cases f <;> decide

/-- C9: The buttons returned by the useState and useReducer examples carry
    their click handler under the lowercase attribute name onclick, and no
    onClick attribute is present. -/
theorem c9_lowercase_onclick_prop :
    ∀ (count : Int) (state : CounterState),
      (attrsOf (UseStateExample.render count)).lookup "onClick" = none ∧
      (attrsOf (UseStateExample.render count)).lookup "onclick" =
        some (Attr.handler (Handler.setCount (count + 1))) ∧
      (attrsOf (UseReducerExample.render state)).lookup "onClick" = none ∧
      (attrsOf (UseReducerExample.render state)).lookup "onclick" =
        some (Attr.handler (Handler.dispatch "increment")) :=
  fun _ _ => ⟨rfl, rfl, rfl, rfl⟩

/-- C10: In the useMemo example, after any sequence of clicks the
    memoized value displayed equals expensiveComputation count, which is
    2 * count, and the increment handler sets count to count + 1. -/
theorem c10_memo_value_and_increment :
    ∀ trace : List Unit,
      (UseMemoExample.render (UseMemoExample.run trace)).1 =
        UseMemoExample.expensiveComputation (UseMemoExample.run trace).count ∧
      UseMemoExample.expensiveComputation (UseMemoExample.run trace).count =
        2 * (UseMemoExample.run trace).count ∧
      (UseMemoExample.click (UseMemoExample.run trace)).count =
        (UseMemoExample.run trace).count + 1 := by
  intro trace
  refine ⟨(render_cacheOk (UseMemoExample.run trace) (run_cacheOk trace)).1, ?_, rfl⟩
  simp [UseMemoExample.expensiveComputation, Int.mul_comm]

end HooksCheatSheet
